import Mathlib

/-!
Verification of the depeche local-network adapter against its natural-language
specification.  Each Python function under scrutiny is shallowly embedded as an
executable Lean definition; byte streams are lists of naturals (one per byte),
machine integers are `Nat` with explicit reductions modulo `2 ^ 32` where the
source truncates.
-/

namespace Depeche

namespace ByteBundle

/-- Big-endian value of a byte string, as computed by Python's
`int.from_bytes(bs, byteorder='big')` (the empty string yields `0`). -/
def bytesToNat (bs : List Nat) : Nat :=
  bs.foldl (fun a b => a * 256 + b) 0

/-- The four bytes that `ctypes` produces for the `c_uint32` field
`proto_identifier` / `message_size` of `_MessageHeader` (big-endian,
truncated to 32 bits). -/
def pyUInt32BE (n : Nat) : List Nat :=
  let m := n % 4294967296
  [m / 16777216, m / 65536 % 256, m / 256 % 256, m % 256]

/-- The protocol magic `b'\xde\x0e\xc0\xe1'` checked by `read`. -/
def magic : List Nat := [222, 14, 192, 225]

/-- Errors raised by `bytebundle.read` (all are `RuntimeError` in the source;
we distinguish them by their message). -/
inductive ReadError where
  | protocolMismatch
  | unsupportedVersion
  | brokenConnection
deriving DecidableEq, Repr

/-- The inner `while remaining_bytes > 0` receive loop of `bytebundle.read`
(lines 72-86): each `sock.recv(min(remaining_bytes, 2048))` returns the next
`min(remaining, 2048)` bytes still available on the stream (a reliable pipe);
a zero-byte read with bytes still missing raises "socket connection broken".
The first argument is recursion fuel; `remaining` decreases by at least one
per successful iteration, so fuel `remaining` suffices (see `readPayloadF_le`).
Returns the payload together with the unconsumed rest of the stream. -/
def readPayloadF : Nat → Nat → List Nat → Option (List Nat × List Nat)
  | _, 0, s => some ([], s)
  | 0, _ + 1, _ => none
  | fuel + 1, rem + 1, s =>
    let part := s.take (min (rem + 1) 2048)
    if part.length = 0 then
      none
    else
      match readPayloadF fuel (rem + 1 - part.length) (s.drop part.length) with
      | none => none
      | some (p, r) => some (part ++ p, r)

/-- The receive loop with its adequate fuel. -/
def readPayload (rem : Nat) (s : List Nat) : Option (List Nat × List Nat) :=
  readPayloadF rem rem s

/-- One invocation of `bytebundle.read(sock, previous_data)` (lines 40-94).
`sock.recv(10)` on the reliable stream returns the next `min(10, |s|)` bytes;
`is_last = bool(data[9:])` is the truthiness of the byte *slice* (nonempty
iff a tenth header byte arrived), exactly as in the source.  The first
argument is recursion fuel for the `return read(sock, received_data)` call;
the fuel is irrelevant because that branch is unreachable (`readAuxF_fuel`). -/
def readAuxF : Nat → List Nat → List Nat → Except ReadError (List Nat)
  | 0, _, _ => Except.error ReadError.brokenConnection
  | fuel + 1, s, prev =>
    let data := s.take 10
    if data.take 4 ≠ magic then
      Except.error ReadError.protocolMismatch
    else if bytesToNat ((data.drop 4).take 1) ≠ 0 then
      Except.error ReadError.unsupportedVersion
    else
      let length := bytesToNat ((data.drop 5).take 4)
      let isLast := decide ((data.drop 9) ≠ [])
      if length > 0 then
        match readPayload length (s.drop 10) with
        | none => Except.error ReadError.brokenConnection
        | some (payload, rest) =>
          let received := prev ++ payload
          if isLast then Except.ok received else readAuxF fuel rest received
      else
        Except.ok []

/-- `bytebundle.read(sock)` applied to a stream `s` of available bytes. -/
def read (s : List Nat) : Except ReadError (List Nat) :=
  readAuxF (s.length + 1) s []

/-- `bytebundle.send(bytes_to_send, sock)` (lines 97-104): one segment whose
`ctypes` header is magic, version `0`, 32-bit big-endian payload size and
last-segment flag byte `1`, followed by the payload. -/
def send (b : List Nat) : List Nat :=
  magic ++ [0] ++ pyUInt32BE b.length ++ [1] ++ b

/-- A stream carrying two consecutive well-formed segments: the first has
payload `[97]` and last-segment flag byte `0`, the second has payload `[98]`
and last-segment flag byte `1`. -/
def twoSegmentStream : List Nat :=
  [222, 14, 192, 225, 0, 0, 0, 0, 1, 0, 97,
   222, 14, 192, 225, 0, 0, 0, 0, 1, 1, 98]

end ByteBundle

end Depeche

namespace Depeche.Announce

/-- Python values as produced by `json.loads`. -/
inductive PyVal where
  | pynull
  | pybool (b : Bool)
  | pyint (n : Int)
  | pystr (s : String)
  | pylist (xs : List PyVal)
  | pyobj (kvs : List (String × PyVal))

/-- Exception classes that can escape `_read_announcement_from_socket`:
`ValueError` (including its subclasses `UnicodeDecodeError` and
`json.JSONDecodeError`) is caught by the listener loops; `KeyError` and
`TypeError` are not. -/
inductive Exc where
  | valueError
  | keyError
  | typeError
deriving DecidableEq, Repr

/-- Python subscription `v[key]`: `KeyError` on a dict without the key,
`TypeError` when `v` is not subscriptable by a string. -/
def pyGet (v : PyVal) (key : String) : Except Exc PyVal :=
  match v with
  | .pyobj kvs =>
    match kvs.lookup key with
    | some x => .ok x
    | none => .error .keyError
  | _ => .error .typeError

/-- Python `v == s` against a string literal (cross-type `==` is `False`,
never an error). -/
def pyEqStr (v : PyVal) (s : String) : Bool :=
  match v with
  | .pystr t => t == s
  | _ => false

/-- Python `v == n` against an int literal (`bool` compares as `0`/`1`). -/
def pyEqInt (v : PyVal) (n : Int) : Bool :=
  match v with
  | .pyint m => m == n
  | .pybool b => (if b then (1 : Int) else 0) == n
  | _ => false

/-- Python `v > 0`: `TypeError` unless `v` is a number. -/
def pyGtZero (v : PyVal) : Except Exc Bool :=
  match v with
  | .pyint m => .ok (0 < m)
  | .pybool b => .ok b
  | _ => .error .typeError

/-- `_validate_announcement` (naive.py lines 96-112).  The `and` chain is
evaluated left to right with short-circuiting: a mismatching value
short-circuits to `False`, while a missing key raises `KeyError` and a
non-numeric `server_port` raises `TypeError`. -/
def validateAnnouncement (v : PyVal) (serverType : String) : Except Exc Bool := do
  let p ← pyGet v "protocol"
  if !pyEqStr p "depeche_ipadapter" then return false
  let ver ← pyGet v "version"
  if !pyEqInt ver 0 then return false
  let op ← pyGet v "operation"
  if !pyEqStr op "server_announcement" then return false
  let content ← pyGet v "content"
  let st ← pyGet content "server_type"
  if !pyEqStr st serverType then return false
  let sp ← pyGet content "server_port"
  pyGtZero sp

/-- A UDP datagram as seen by `_read_announcement_from_socket`: raw bytes
that are not valid UTF-8, valid text that is not valid JSON, or a decoded
JSON value. -/
inductive Datagram where
  | badUtf8
  | badJson
  | json (v : PyVal)

/-- `_read_announcement_from_socket` (naive.py lines 71-93): UTF-8 decode
failures (`UnicodeDecodeError`) and JSON parse failures (`JSONDecodeError`)
are `ValueError` subclasses; a datagram that fails validation raises a plain
`ValueError`; a validated announcement yields `(server_port, callsign)` - the
`callsign` lookup happens only after validation and can itself still raise
`KeyError`. -/
def readAnnouncementFromSocket (d : Datagram) (serverType : String) :
    Except Exc (PyVal × PyVal) :=
  match d with
  | .badUtf8 => .error .valueError
  | .badJson => .error .valueError
  | .json v => do
    let ok ← validateAnnouncement v serverType
    if ok then
      let content ← pyGet v "content"
      let sp ← pyGet content "server_port"
      let cs ← pyGet content "callsign"
      return (sp, cs)
    else
      .error .valueError

/-- Fate of a listener loop after one datagram.  The loop bodies of
`_ExchangeAnnouncementListener.listen` (lines 295-311) and
`_RendezvousAnnouncementListener.listen` (lines 579-595) catch
`(ValueError, socket.timeout)` and `ConnectionRefusedError` only; any other
exception escapes `run` and terminates the listener thread. -/
inductive ListenerFate where
  | survives
  | crashes (e : Exc)
deriving DecidableEq, Repr

/-- What one datagram does to the exchange-announcement listener loop. -/
def exchangeListenerFate (d : Datagram) : ListenerFate :=
  match readAnnouncementFromSocket d "exchange" with
  | .ok _ => .survives
  | .error .valueError => .survives
  | .error e => .crashes e

/-- The self-echo filter of `_ExchangeAnnouncementListener.listen`
(line 298): the announcement callback is invoked iff
`callsign == self.own_callsign` is `False` (Python `==` between two
`Optional[str]` values). -/
def exchangeListenerInvokesCallback (ownCallsign callsign : Option String) : Bool :=
  !(callsign == ownCallsign)

/-- `start_register_announcements` (lines 245-257) constructs
`_ExchangeAnnouncementListener(on_announcement, port, timeout)`, leaving the
constructor's `own_callsign` parameter at its default `None`. -/
def registeredListenerOwnCallsign : Option String := none

/-- The self-echo filter of `_RendezvousAnnouncementListener.listen`
(line 582): the chaser initiates a rendezvous connection iff the received
callsign differs from `self.own_rendezvous_info.alias` - the user-facing
*alias*, not the adapter's `_callsign` UUID that its own announcements
actually carry (line 509 sends `self._callsign`). -/
def rendezvousChaserInitiates (ownAlias : String) (callsign : Option String) : Bool :=
  !(callsign == some ownAlias)

end Depeche.Announce

namespace Depeche.Rendezvous

/-- The port-probing loop of `_RendezvousServer.run` (naive.py lines
660-673): `while not success and tries < 10: self.port = self.port + tries;
try: bind(self.port); except: tries += 1`.  `busy p = true` means binding
port `p` fails.  Returns the bound port (if any) together with the list of
ports probed, in order.  The last argument counts remaining loop iterations
(`10` at entry suffices since `tries` grows by one per failure). -/
def portSearchAux (busy : Nat → Bool) : Nat → Nat → Nat → Option Nat × List Nat
  | _, _, 0 => (none, [])
  | port, tries, fuel + 1 =>
    if tries < 10 then
      let p := port + tries
      if busy p then
        let r := portSearchAux busy p (tries + 1) fuel
        (r.1, p :: r.2)
      else
        (some p, [p])
    else
      (none, [])

/-- `_RendezvousServer.run` port selection, starting from
`self.rendezvous_server_port` with `tries = 0`. -/
def rendezvousServerPortSearch (base : Nat) (busy : Nat → Bool) :
    Option Nat × List Nat :=
  portSearchAux busy base 0 10

end Depeche.Rendezvous

namespace Depeche.Wire

/-- A naive (timezone-free) Python `datetime.datetime`. -/
structure PyDateTime where
  year : Nat
  month : Nat
  day : Nat
  hour : Nat
  minute : Nat
  second : Nat
  microsecond : Nat
deriving DecidableEq, Repr

/-- Zero-padding of a decimal number to width `w`. -/
def padNum (w n : Nat) : String :=
  let s := toString n
  String.mk (List.replicate (w - s.length) '0') ++ s

/-- `datetime.isoformat()` for a naive datetime: `YYYY-MM-DDTHH:MM:SS`, with
the `.ffffff` part appended exactly when `microsecond != 0`. -/
def isoformat (t : PyDateTime) : String :=
  padNum 4 t.year ++ "-" ++ padNum 2 t.month ++ "-" ++ padNum 2 t.day ++ "T" ++
    padNum 2 t.hour ++ ":" ++ padNum 2 t.minute ++ ":" ++ padNum 2 t.second ++
    (if t.microsecond == 0 then "" else "." ++ padNum 6 t.microsecond)

/-- Greedily take up to `k` leading decimal digits. -/
def takeDigits : Nat → List Char → List Char × List Char
  | 0, cs => ([], cs)
  | k + 1, c :: cs =>
    if c.isDigit then
      let r := takeDigits k cs
      (c :: r.1, r.2)
    else
      ([], c :: cs)
  | _ + 1, [] => ([], [])

/-- Decimal value of a digit string. -/
def digitsVal (ds : List Char) : Nat :=
  ds.foldl (fun a c => a * 10 + (c.toNat - 48)) 0

/-- Consume one expected literal character. -/
def expectChar (c : Char) : List Char → Option (List Char)
  | d :: cs => if d == c then some cs else none
  | [] => none

/-- One bounded numeric directive of `_strptime`: up to two digits, value
within the directive's calendar range. -/
def parseField (lo hi : Nat) (cs : List Char) : Option (Nat × List Char) :=
  let r := takeDigits 2 cs
  if r.1.length = 0 then none
  else
    let v := digitsVal r.1
    if lo ≤ v ∧ v ≤ hi then some (v, r.2) else none

/-- The `%Y` directive: exactly four digits. -/
def parseYear4 (cs : List Char) : Option (Nat × List Char) :=
  match cs with
  | a :: b :: c :: d :: rest =>
    if a.isDigit && b.isDigit && c.isDigit && d.isDigit then
      some (digitsVal [a, b, c, d], rest)
    else
      none
  | _ => none

/-- `datetime.strptime(s, "%Y-%m-%dT%H:%M:%S.%f")` as implemented by
Python's `_strptime`: `%Y` is exactly four digits; `%m`, `%d`, `%H`, `%M`,
`%S` are one or two digits within their calendar range; the literal `.` is
required; `%f` is one to six digits, zero-padded on the right to
microseconds; leftover characters ("unconverted data") raise `ValueError`
(modelled as `none`). -/
def strptimeIsoMicro (s : String) : Option PyDateTime := do
  let cs0 := s.toList
  let (y, cs1) ← parseYear4 cs0
  let cs2 ← expectChar '-' cs1
  let (mo, cs3) ← parseField 1 12 cs2
  let cs4 ← expectChar '-' cs3
  let (d, cs5) ← parseField 1 31 cs4
  let cs6 ← expectChar 'T' cs5
  let (h, cs7) ← parseField 0 23 cs6
  let cs8 ← expectChar ':' cs7
  let (mi, cs9) ← parseField 0 59 cs8
  let cs10 ← expectChar ':' cs9
  let (sec, cs11) ← parseField 0 59 cs10
  let cs12 ← expectChar '.' cs11
  let fr := takeDigits 6 cs12
  if fr.1.length = 0 then none
  else if fr.2 ≠ [] then none
  else some ⟨y, mo, d, h, mi, sec, digitsVal fr.1 * 10 ^ (6 - fr.1.length)⟩

/-- `structures.UserMessage`: the fields set by its constructor plus the
base-class `exchange_ref`. -/
structure UserMessage where
  toAddress : String
  sendTime : PyDateTime
  contents : String
  exchangeRef : String
deriving DecidableEq, Repr

/-- The JSON object emitted by `UserMessage.serialize` - a flat object of
string values, which JSON text encodes losslessly, so the wire record stands
for the serialized text. -/
structure UserMessageWire where
  type : String
  toAddress : String
  sendTime : String
  contents : String
  exchangeRef : String
deriving DecidableEq, Repr

/-- `UserMessage.serialize` (structures.py lines 172-177 plus the base-class
fields, lines 135-142): `send_time` goes on the wire as
`self.send_time.isoformat()`. -/
def serializeUserMessage (m : UserMessage) : UserMessageWire :=
  ⟨"user_message", m.toAddress, isoformat m.sendTime, m.contents, m.exchangeRef⟩

/-- `UserMessage.deserialize` (structures.py lines 179-193): parses
`send_time` with `datetime.strptime(..., "%Y-%m-%dT%H:%M:%S.%f")` - a
`ValueError` (modelled as `none`) when the text has no fractional-seconds
part - and rebuilds the message, copying `exchange_ref`. -/
def deserializeUserMessage (w : UserMessageWire) : Option UserMessage :=
  match strptimeIsoMicro w.sendTime with
  | some t => some ⟨w.toAddress, t, w.contents, w.exchangeRef⟩
  | none => none

end Depeche.Wire

namespace Depeche.Storage

/-- A row of the `nacl_key` table (sqlite_storage.py lines 58-62). -/
structure NaclKey where
  id : String
  isOwn : Bool
  privateKey : Option String
  publicKey : String
deriving DecidableEq, Repr

/-- A row of the `own_address` table (lines 74-80). -/
structure OwnAddress where
  id : String
  givenTo : Option String
  keyId : String
  isUsed : Bool
deriving DecidableEq, Repr

/-- A row of the `foreign_address` table (lines 65-71). -/
structure ForeignAddress where
  id : String
  contactId : String
  keyId : String
  isUsed : Bool
deriving DecidableEq, Repr

/-- A row of the `message` table (lines 83-90), restricted to the columns the
operations under scrutiny read (`id`, `header_address`, `body_contents`; the
timestamp and forward-count metadata columns are never consulted by
`clean_out_received_message` or the key queries). -/
structure StoredMessage where
  id : String
  headerAddress : String
  contents : String
deriving DecidableEq, Repr

/-- The database state, each table as a row list in insertion (rowid)
order. -/
structure Store where
  keys : List NaclKey
  ownAddresses : List OwnAddress
  foreignAddresses : List ForeignAddress
  messages : List StoredMessage
deriving DecidableEq, Repr

/-- `read_message` (lines 238-252): `SELECT * FROM message WHERE id = ?
LIMIT 1`. -/
def readMessage (st : Store) (mid : String) : Option StoredMessage :=
  (st.messages.filter (fun m => m.id == mid)).head?

/-- `get_own_address_nacl_key` (lines 294-311): join of `nacl_key` and
`own_address` on `nacl_key.id = own_address.key_id` with `nacl_key.is_own = 1`
and `own_address.id = addr`.  The Python loop overwrites `result` per row, so
the last row wins (at most one row exists anyway when the address column is a
primary key); `(None, None)` when the join is empty. -/
def getOwnAddressNaclKey (st : Store) (addr : String) : Option String × Option String :=
  let rows := (st.keys.filter (·.isOwn)).flatMap (fun k =>
    (st.ownAddresses.filter (fun a => a.keyId == k.id && a.id == addr)).map (fun _ => k))
  match rows.getLast? with
  | some k => (some k.id, k.privateKey)
  | none => (none, none)

/-- `remove_own_address` (lines 394-402): `DELETE FROM own_address WHERE
id = ?`. -/
def removeOwnAddress (st : Store) (addr : String) : Store :=
  { st with ownAddresses := st.ownAddresses.filter (fun a => !(a.id == addr)) }

/-- Whether any address row (own or foreign) references key `kid`; with
`PRAGMA foreign_keys = ON` these are the foreign-key children of
`nacl_key`. -/
def keyReferenced (st : Store) (kid : String) : Bool :=
  st.ownAddresses.any (fun a => a.keyId == kid) ||
    st.foreignAddresses.any (fun f => f.keyId == kid)

/-- `remove_own_nacl_key` (lines 328-335): `DELETE FROM nacl_key WHERE
id = ? AND is_own = 1` under foreign-key enforcement: the delete raises
`sqlite3.IntegrityError` iff it removes a row while some `own_address` or
`foreign_address` row still references that key id and no `nacl_key` row of
that id remains to satisfy the constraint. -/
def removeOwnNaclKey (st : Store) (kid : String) : Except Unit Store :=
  let remaining := st.keys.filter (fun k => !(k.id == kid && k.isOwn))
  if remaining.length ≠ st.keys.length && keyReferenced st kid &&
      !(remaining.any (fun k => k.id == kid)) then
    Except.error ()
  else
    Except.ok { st with keys := remaining }

/-- `clean_out_received_message` (lines 198-227): look up the message and the
key bound to its `header_address`; if there is none, return with no change;
otherwise remove the own address and then attempt `remove_own_nacl_key`,
swallowing the `IntegrityError` raised while other addresses still reference
the key.  `none` models the `AttributeError` Python raises on an unknown
message id. -/
def cleanOutReceivedMessage (st : Store) (mid : String) : Option Store :=
  match readMessage st mid with
  | none => none
  | some msg =>
    match (getOwnAddressNaclKey st msg.headerAddress).1 with
    | none => some st
    | some kid =>
      let st1 := removeOwnAddress st msg.headerAddress
      match removeOwnNaclKey st1 kid with
      | Except.ok st2 => some st2
      | Except.error _ => some st1

/-- The row list of the `LEFT JOIN` scanned by `get_least_used_own_nacl_key`
(lines 338-359), projected to its `nacl_key` side: the outer scan visits the
`is_own = 1` rows of `nacl_key` in insertion order; each joins to its
matching `own_address` rows, or to a single NULL-padded row when there is
none. -/
def leastUsedJoinRows (st : Store) : List NaclKey :=
  (st.keys.filter (·.isOwn)).flatMap (fun k =>
    match st.ownAddresses.filter (fun a => a.keyId == k.id) with
    | [] => [k]
    | rows => rows.map (fun _ => k))

/-- `get_least_used_own_nacl_key` (lines 338-359).  The query aggregates
`COUNT(own_address.id)` but has NO `GROUP BY`, so SQLite collapses the whole
join into a single output row: `usage` is the total count over all own keys,
the bare columns `nacl_key.id` and `nacl_key.public_key` take their values
from the last row the scan visits (officially, from an arbitrarily chosen
row), and `ORDER BY usage ASC LIMIT 1` orders that single row.  With no own
key at all the aggregate row has NULL bare columns. -/
def getLeastUsedOwnNaclKey (st : Store) : Option String × Option String :=
  match (leastUsedJoinRows st).getLast? with
  | some k => (some k.id, some k.publicKey)
  | none => (none, none)

/-- Number of `own_address` rows referencing key `kid` (the per-key count the
query was presumably meant to minimise). -/
def keyUsage (st : Store) (kid : String) : Nat :=
  (st.ownAddresses.filter (fun a => a.keyId == kid)).length

/-- Store with two own keys where the second key in scan order is the more
used one: `k1` backs no address, `k2` backs one. -/
def twoKeyStore : Store :=
  { keys := [⟨"k1", true, some "p1", "P1"⟩, ⟨"k2", true, some "p2", "P2"⟩]
    ownAddresses := [⟨"a1", some "c", "k2", false⟩]
    foreignAddresses := []
    messages := [] }

/-- Store whose single own key is referenced both by the own address `a1`
(to which message `m1` was delivered) and by a foreign address `f1`. -/
def foreignRefStore : Store :=
  { keys := [⟨"k", true, some "priv", "pub"⟩]
    ownAddresses := [⟨"a1", some "c", "k", false⟩]
    foreignAddresses := [⟨"f1", "c", "k", false⟩]
    messages := [⟨"m1", "a1", "DATA"⟩] }

/-- The clean-out scenario of the repository's own test
(`test_message_clean_out`): one own key backing two own addresses, a message
delivered to the first. -/
def twoAddressStore : Store :=
  { keys := [⟨"k", true, some "pk", "PK"⟩]
    ownAddresses := [⟨"a1", some "c", "k", false⟩, ⟨"a2", some "c", "k", false⟩]
    foreignAddresses := []
    messages := [⟨"m1", "a1", "X"⟩] }

end Depeche.Storage

namespace Depeche.Exchange

/-- One serialized message object inside a `MessageContainer` on the wire
(one element of the JSON array that `container.serialize()` emits,
structures.py lines 105-108): a serialized user message, or a flow-control
object carrying only `type` and `exchange_ref`.  The JSON text encoding of
the array-of-objects structure itself is lossless and is modelled as the
identity; the lossy step - `UserMessage.deserialize`'s `strptime` - is
modelled explicitly in `deserializeMsg`. -/
inductive WireMsg where
  | user (w : Depeche.Wire.UserMessageWire)
  | stopSending
  | noMoreData
deriving DecidableEq, Repr

/-- A message as produced by `MessageContainer.deserialize`'s dispatch on the
`type` discriminator. -/
inductive RecvMsg where
  | user (m : Depeche.Wire.UserMessage)
  | stopSending
  | noMoreData
deriving DecidableEq, Repr

/-- `class_mapping[message_dict["type"]].deserialize` for one container
element (structures.py lines 119-121): the flow-control classes inherit the
base deserializer and always succeed; a `user_message` goes through
`UserMessage.deserialize`, whose `strptime` raises `ValueError` (modelled as
`none`) when `send_time` has no fractional-seconds part. -/
def deserializeMsg : WireMsg → Option RecvMsg
  | WireMsg.user w =>
    match Depeche.Wire.deserializeUserMessage w with
    | some m => some (RecvMsg.user m)
    | none => none
  | WireMsg.stopSending => some RecvMsg.stopSending
  | WireMsg.noMoreData => some RecvMsg.noMoreData

/-- `MessageContainer.deserialize` (structures.py lines 110-123): every
element of the received container is deserialized before any dispatch; a
failing element raises, so the whole container yields `none`. -/
def deserializeContainer : List WireMsg → Option (List RecvMsg)
  | [] => some []
  | w :: ws =>
    match deserializeMsg w, deserializeContainer ws with
    | some r, some rs => some (r :: rs)
    | _, _ => none

/-- The wire codec round-trips on `m`: `UserMessage.deserialize` accepts
`UserMessage.serialize`'s output and rebuilds the same message.  (This fails
exactly when `send_time` serializes without a parsable fractional-seconds
part, e.g. `microsecond == 0`.) -/
abbrev roundTrips (m : Depeche.Wire.UserMessage) : Prop :=
  Depeche.Wire.deserializeUserMessage (Depeche.Wire.serializeUserMessage m) = some m

/-- The local state of one endpoint of `_message_exchange_loop`
(naive.py lines 139-166): the `keep_sending` / `keep_receiving` flags, the
remaining messages of the `messages_to_send` iterator, the arguments of the
`on_message_received` invocations so far (in order), and how many
`no_more_data` messages this endpoint has sent and received. -/
structure EndState where
  ks : Bool
  kr : Bool
  toSend : List Depeche.Wire.UserMessage
  delivered : List Depeche.Wire.UserMessage
  nmdSent : Nat
  nmdRecv : Nat
deriving DecidableEq, Repr

/-- `_send_messages` (lines 194-219): while `keep_sending`, take the next
message from the iterator and wrap it in a one-element container (serialized
via `UserMessage.serialize`); when the iterator is exhausted, clear
`keep_sending`; whenever `keep_sending` is (now) false, send a one-element
container holding `no_more_data` instead. -/
def sendPhase (st : EndState) : EndState × List WireMsg :=
  match st.ks, st.toSend with
  | true, m :: rest =>
    ({ st with toSend := rest }, [WireMsg.user (Depeche.Wire.serializeUserMessage m)])
  | true, [] => ({ st with ks := false, nmdSent := st.nmdSent + 1 }, [WireMsg.noMoreData])
  | false, _ => ({ st with nmdSent := st.nmdSent + 1 }, [WireMsg.noMoreData])

/-- The per-message dispatch of `_receive_messages` (lines 177-188):
`stop_sending` clears `keep_sending`, `no_more_data` clears `keep_receiving`,
anything else is handed to `on_message_received`. -/
def recvOne (st : EndState) (w : RecvMsg) : EndState :=
  match w with
  | RecvMsg.stopSending => { st with ks := false }
  | RecvMsg.noMoreData => { st with kr := false, nmdRecv := st.nmdRecv + 1 }
  | RecvMsg.user m => { st with delivered := st.delivered ++ [m] }

/-- `_receive_messages` (lines 169-191): read one framed container,
`MessageContainer.deserialize` it, then dispatch each message.  `none` models
the `ValueError` that `strptime` raises inside the deserializer; nothing in
`_message_exchange_loop` or `_receive_messages` catches it, so it kills the
endpoint's loop. -/
def recvPhase (st : EndState) (c : List WireMsg) : Option EndState :=
  match deserializeContainer c with
  | some rs => some (rs.foldl recvOne st)
  | none => none

/-- The `while keep_sending or keep_receiving` guard. -/
def active (st : EndState) : Bool :=
  st.ks || st.kr

/-- Joint outcome of running both endpoint loops over one reliable
connection: clean termination of both, a deadlocked read, an uncaught
exception in one loop (which also aborts the exchange for the peer, left on
a dead connection), or fuel exhaustion. -/
inductive Outcome where
  | done (conn acc : EndState)
  | blocked
  | crashed
  | fuelOut
deriving DecidableEq, Repr

/-- Result of one scheduling step of one endpoint. -/
inductive StepRes where
  | ok (st : EndState) (inbound outbound : List (List WireMsg))
  | blocked
  | crashed
deriving DecidableEq, Repr

/-- One loop iteration (receive phase, then send phase) of one endpoint, if
its guard still holds: consumes the head of its inbound container queue
(`blocked` = the endpoint would block forever in `bytebundle.read`;
`crashed` = deserialization raised) and appends its outgoing container to
the opposite queue. -/
def loopIter (st : EndState) (inbound outbound : List (List WireMsg)) : StepRes :=
  if active st then
    match inbound with
    | [] => StepRes.blocked
    | c :: inbound' =>
      match recvPhase st c with
      | none => StepRes.crashed
      | some st1 =>
        let p := sendPhase st1
        StepRes.ok p.1 inbound' (outbound ++ [p.2])
  else
    StepRes.ok st inbound outbound

/-- Lock-step scheduler for the two loops.  Blocking `bytebundle.read` over
one TCP connection serialises the exchange into strict alternation - the
connector's pre-loop send, then rounds of (acceptor iteration; connector
iteration) - so this deterministic schedule is THE behaviour of the two
threads (each endpoint is a deterministic function of the container sequence
it reads, and the queues are FIFO).  `toConn` holds containers sent by the
acceptor and not yet read by the connector; `toAcc` the converse. -/
def runRounds : Nat → EndState → EndState → List (List WireMsg) → List (List WireMsg) → Outcome
  | 0, _, _, _, _ => Outcome.fuelOut
  | fuel + 1, conn, acc, toConn, toAcc =>
    if active conn || active acc then
      match loopIter acc toAcc toConn with
      | StepRes.blocked => Outcome.blocked
      | StepRes.crashed => Outcome.crashed
      | StepRes.ok acc' toAcc' toConn' =>
        match loopIter conn toConn' toAcc' with
        | StepRes.blocked => Outcome.blocked
        | StepRes.crashed => Outcome.crashed
        | StepRes.ok conn' toConn'' toAcc'' => runRounds fuel conn' acc' toConn'' toAcc''
    else
      Outcome.done conn acc

/-- Initial endpoint state for a message list. -/
def initState (ms : List Depeche.Wire.UserMessage) : EndState :=
  { ks := true, kr := true, toSend := ms, delivered := [], nmdSent := 0, nmdRecv := 0 }

/-- One complete exchange connection: the connector
(`exchange_messages_with_server`, `start_sending = true`) runs its pre-loop
send phase, then both endpoints run `while keep_sending or keep_receiving:
receive; send` until both exit.  `ms` are the connector's messages, `ns` the
acceptor's.  The fuel `|ms| + |ns| + 3` covers every round (proved below). -/
def exchangeRun (ms ns : List Depeche.Wire.UserMessage) : Outcome :=
  let p := sendPhase (initState ms)
  runRounds (ms.length + ns.length + 3) p.1 (initState ns) [] [p.2]

end Depeche.Exchange

namespace Depeche.ByteBundle

theorem readPayloadF_le (fuel : Nat) :
    ∀ rem s, rem ≤ fuel → rem ≤ s.length →
      readPayloadF fuel rem s = some (s.take rem, s.drop rem) := by
  induction fuel with
  | zero =>
    intro rem s hf _
    interval_cases rem
    simp [readPayloadF]
  | succ f ih =>
    intro rem s hf hs
    match rem with
    | 0 => simp [readPayloadF]
    | r + 1 =>
      have hpos : 0 < min (r + 1) 2048 := by omega
      have hlen : (s.take (min (r + 1) 2048)).length = min (min (r + 1) 2048) s.length := by
        simp
      have hplen : (s.take (min (r + 1) 2048)).length = min (r + 1) 2048 := by
        rw [hlen]; omega
      rw [readPayloadF]
      rw [if_neg (by omega)]
      have hrem' : r + 1 - (s.take (min (r + 1) 2048)).length ≤ f := by omega
      have hrems : r + 1 - (s.take (min (r + 1) 2048)).length ≤
          (s.drop (s.take (min (r + 1) 2048)).length).length := by
        simp only [List.length_drop]
        omega
      rw [ih _ _ hrem' hrems]
      have hmin : min (r + 1) 2048 ≤ r + 1 := by omega
      simp only [hplen, List.take_drop, List.drop_drop]
      have hsum : (r + 1) ⊓ 2048 + (r + 1 - (r + 1) ⊓ 2048) = r + 1 := by omega
      rw [hsum]
      have htt : s.take ((r + 1) ⊓ 2048) = (s.take (r + 1)).take ((r + 1) ⊓ 2048) := by
        rw [List.take_take]
        congr 1
        omega
      rw [htt, List.take_append_drop]

theorem readPayload_le (rem : Nat) (s : List Nat) (h : rem ≤ s.length) :
    readPayload rem s = some (s.take rem, s.drop rem) :=
  readPayloadF_le rem rem s (Nat.le_refl rem) h

theorem readPayloadF_some_le (fuel : Nat) :
    ∀ rem s x, readPayloadF fuel rem s = some x → rem ≤ s.length := by
  induction fuel with
  | zero =>
    intro rem s x h
    match rem with
    | 0 => simp
    | r + 1 => simp [readPayloadF] at h
  | succ f ih =>
    intro rem s x h
    match rem with
    | 0 => simp
    | r + 1 =>
      rw [readPayloadF] at h
      by_cases hp : (s.take (min (r + 1) 2048)).length = 0
      · rw [if_pos hp] at h
        exact absurd h (by simp)
      · rw [if_neg hp] at h
        cases hrec : readPayloadF f (r + 1 - (s.take (min (r + 1) 2048)).length)
            (s.drop (s.take (min (r + 1) 2048)).length) with
        | none => rw [hrec] at h; simp at h
        | some y =>
          have hy := ih _ _ _ hrec
          have hl : (s.take (min (r + 1) 2048)).length = min (min (r + 1) 2048) s.length := by
            simp
          simp only [List.length_drop] at hy
          omega

theorem readAuxF_fuel (f1 f2 : Nat) (s prev : List Nat) :
    readAuxF (f1 + 1) s prev = readAuxF (f2 + 1) s prev := by
  rw [readAuxF, readAuxF]
  by_cases hm : (s.take 10).take 4 ≠ magic
  · rw [if_pos hm, if_pos hm]
  · rw [if_neg hm, if_neg hm]
    by_cases hv : bytesToNat (((s.take 10).drop 4).take 1) ≠ 0
    · rw [if_pos hv, if_pos hv]
    · rw [if_neg hv, if_neg hv]
      by_cases hl : bytesToNat (((s.take 10).drop 5).take 4) > 0
      · rw [if_pos hl, if_pos hl]
        cases hrp : readPayload (bytesToNat (((s.take 10).drop 5).take 4)) (s.drop 10) with
        | none => rfl
        | some pr =>
          obtain ⟨payload, rest⟩ := pr
          have hle := readPayloadF_some_le _ _ _ _ hrp
          have hs : 11 ≤ s.length := by
            simp only [List.length_drop] at hle
            omega
          have hlast : ((s.take 10).drop 9) ≠ [] := by
            intro hemp
            have hlen := congrArg List.length hemp
            simp only [List.length_drop, List.length_take, List.length_nil] at hlen
            omega
          simp [hlast]
      · rw [if_neg hl, if_neg hl]

theorem bytesToNat_pyUInt32BE (n : Nat) (h : n < 4294967296) :
    bytesToNat (pyUInt32BE n) = n := by
  simp only [bytesToNat, pyUInt32BE, List.foldl]
  omega

theorem send_cons (b : List Nat) :
    send b = 222 :: 14 :: 192 :: 225 :: 0 ::
      (b.length % 4294967296) / 16777216 ::
      (b.length % 4294967296) / 65536 % 256 ::
      (b.length % 4294967296) / 256 % 256 ::
      (b.length % 4294967296) % 256 :: 1 :: b := by
  simp [send, magic, pyUInt32BE]
end Depeche.ByteBundle

/-- C3: for every byte string `b` with `|b| ≤ 2 ^ 20`, reading back what
`send` emitted returns exactly `b`: `send` frames `b` as a single segment
whose payload-size field is `|b|` and whose last-segment flag is set, and
`read` of that stream yields the payload `b` (an empty `b` is returned via
the `length == 0` branch). -/
theorem framing_round_trip (b : List Nat) (h : b.length ≤ 1048576) :
    Depeche.ByteBundle.read (Depeche.ByteBundle.send b) = Except.ok b := by
  have hlt : b.length < 4294967296 := by omega
  have hmod : b.length % 4294967296 = b.length := Nat.mod_eq_of_lt hlt
  rw [Depeche.ByteBundle.read, Depeche.ByteBundle.send_cons, hmod]
  rw [Depeche.ByteBundle.readAuxF]
  have htake : ∀ (x1 x2 x3 x4 : Nat),
      (222 :: 14 :: 192 :: 225 :: 0 :: x1 :: x2 :: x3 :: x4 :: 1 :: b).take 10 =
        [222, 14, 192, 225, 0, x1, x2, x3, x4, 1] := by
    intro x1 x2 x3 x4; rfl
  rw [htake]
  have hdrop : ∀ (x1 x2 x3 x4 : Nat),
      (222 :: 14 :: 192 :: 225 :: 0 :: x1 :: x2 :: x3 :: x4 :: 1 :: b).drop 10 = b := by
    intro x1 x2 x3 x4; rfl
  simp only [hdrop]
  have hmagic : ([222, 14, 192, 225, 0, b.length / 16777216, b.length / 65536 % 256,
      b.length / 256 % 256, b.length % 256, 1] : List Nat).take 4 =
      Depeche.ByteBundle.magic := by
    rfl
  rw [if_neg (by rw [hmagic]; simp)]
  have hver : Depeche.ByteBundle.bytesToNat
      ((([222, 14, 192, 225, 0, b.length / 16777216, b.length / 65536 % 256,
        b.length / 256 % 256, b.length % 256, 1] : List Nat).drop 4).take 1) = 0 := by
    rfl
  rw [if_neg (by rw [hver]; simp)]
  have hlen : Depeche.ByteBundle.bytesToNat
      ((([222, 14, 192, 225, 0, b.length / 16777216, b.length / 65536 % 256,
        b.length / 256 % 256, b.length % 256, 1] : List Nat).drop 5).take 4) = b.length := by
    show Depeche.ByteBundle.bytesToNat [b.length / 16777216, b.length / 65536 % 256,
      b.length / 256 % 256, b.length % 256] = b.length
    simp only [Depeche.ByteBundle.bytesToNat, List.foldl]
    omega
  rw [hlen]
  match b with
  | [] => simp
  | x :: xs =>
    rw [if_pos (by simp)]
    rw [Depeche.ByteBundle.readPayload_le _ _ (Nat.le_refl _)]
    simp

/-- Witness for C3 at the concrete payload `[97, 98, 99]`. -/
theorem framing_round_trip_witness :
    Depeche.ByteBundle.read (Depeche.ByteBundle.send [97, 98, 99]) =
      Except.ok [97, 98, 99] :=
  framing_round_trip [97, 98, 99] (by decide)


/-- C1 (code bug): on a stream of two well-formed segments where only the
second carries the last-segment flag, `read` returns just the first payload
`[97]` instead of the concatenation `[97, 98]`.  The source computes
`is_last = bool(data[9:])`, the truthiness of a nonempty byte slice, which is
`True` whenever a tenth header byte arrived, regardless of the flag byte's
value - so `read` stops at a segment whose flag byte equals zero, contradicting
the module's own docstring ("True, indicating end-of-sequence, if non-zero";
"the method will attempt to continue reading until the last segment has been
received"). -/
theorem read_stops_at_zero_flag_segment :
    Depeche.ByteBundle.read Depeche.ByteBundle.twoSegmentStream = Except.ok [97] ∧
      Depeche.ByteBundle.read Depeche.ByteBundle.twoSegmentStream ≠ Except.ok [97, 98] := by
  refine ⟨rfl, ?_⟩
  intro h
  rw [show Depeche.ByteBundle.read Depeche.ByteBundle.twoSegmentStream = Except.ok [97]
    from rfl] at h
  injection h with h'
  exact absurd h' (by decide)

/-- C7 counterexample: a freshly-accepted stream that yields zero bytes does
NOT make `read` return an empty buffer, contrary to the claim. -/
theorem read_empty_stream_not_empty_buffer :
    Depeche.ByteBundle.read [] ≠ Except.ok [] := by
  intro h
  rw [show Depeche.ByteBundle.read [] =
    Except.error Depeche.ByteBundle.ReadError.protocolMismatch from rfl] at h
  exact Except.noConfusion h

/-- C7 amended: on a stream that yields zero bytes before any header byte,
`read` raises the protocol-mismatch `RuntimeError` (the 4-byte magic check
fails on the empty prefix `data[:4] == b''`); it does not return an empty
buffer. -/
theorem read_empty_stream_raises_protocol_mismatch :
    Depeche.ByteBundle.read [] =
      Except.error Depeche.ByteBundle.ReadError.protocolMismatch := rfl

namespace Depeche.Announce

/-- C5 (code bug): the self-echo filters never fire for a node's own
announcements.  `start_register_announcements` builds the exchange listener
without passing the node's callsign, so the filter compares the received
callsign against `None` and the callback IS invoked for a datagram carrying
the node's own callsign; the rendezvous chaser compares the received callsign
against the rendezvous *alias*, while the node's own announcements carry the
adapter's `_callsign` UUID (line 509), so the chaser initiates a connection
for its own datagram whenever the alias differs from that UUID.  Both
contradict the claim (and the code's own "Picked up my own announcement.
Disregarding it." intent). -/
theorem self_echo_filter_ineffective :
    exchangeListenerInvokesCallback registeredListenerOwnCallsign
        (some "0d9f1f8e-7c4e-4f2a-9f34-123456789abc") = true ∧
      rendezvousChaserInitiates "alice"
        (some "0d9f1f8e-7c4e-4f2a-9f34-123456789abc") = true := by
  decide

/-- C6 (code bug): the announcement-listener loop only survives exceptions of
class `ValueError` (and socket timeouts); a datagram that is well-formed JSON
but lacks the `protocol` key raises `KeyError` inside
`_validate_announcement`, and one whose `server_port` is a string raises
`TypeError` - neither is caught, so the listener thread terminates, contrary
to the claim that no datagram content is fatal.  (Non-UTF-8 or non-JSON
datagrams, by contrast, are survived.) -/
theorem announcement_listener_killed_by_malformed_datagram :
    exchangeListenerFate (Datagram.json (PyVal.pyobj [("version", PyVal.pyint 0)])) =
        ListenerFate.crashes Exc.keyError ∧
      exchangeListenerFate (Datagram.json (PyVal.pyobj
        [("protocol", PyVal.pystr "depeche_ipadapter"),
         ("version", PyVal.pyint 0),
         ("operation", PyVal.pystr "server_announcement"),
         ("content", PyVal.pyobj
           [("server_type", PyVal.pystr "exchange"),
            ("server_port", PyVal.pystr "27272")])])) =
        ListenerFate.crashes Exc.typeError ∧
      exchangeListenerFate Datagram.badJson = ListenerFate.survives ∧
      exchangeListenerFate Datagram.badUtf8 = ListenerFate.survives := by
  refine ⟨rfl, rfl, rfl, rfl⟩

end Depeche.Announce

namespace Depeche.Rendezvous

/-- C8 (code bug): the rendezvous server's port probing is NOT consecutive.
The loop body executes `self.port = self.port + tries`, accumulating the try
counter into the port, so the probed offsets from the base port are the
triangular numbers 0, 1, 3, 6, 10, 15, 21, 28, 36, 45 rather than
0, 1, 2, ..., 9: with the base port and base+1 busy, the third probe is
base+3 = 27276 (skipping 27275), and with every port busy the ten probes
span offsets up to +45.  (The sibling helper `_create_socket_server`
recomputes `port = base_port + tries` each time, which is the consecutive
behaviour the claim describes.) -/
theorem rendezvous_port_search_not_consecutive :
    rendezvousServerPortSearch 27273 (fun p => p == 27273 || p == 27274) =
        (some 27276, [27273, 27274, 27276]) ∧
      (rendezvousServerPortSearch 27273 (fun _ => true)).2 =
        [27273, 27274, 27276, 27279, 27283, 27288, 27294, 27301, 27309, 27318] ∧
      (rendezvousServerPortSearch 27273 (fun _ => true)).1 = none := by
  refine ⟨rfl, rfl, rfl⟩

end Depeche.Rendezvous

namespace Depeche.Wire

/-- C10 (code bug): the serialize/deserialize round-trip for `UserMessage`
fails whenever `send_time.microsecond == 0`: `isoformat()` then omits the
fractional-seconds part, but `deserialize` parses with the format
`"%Y-%m-%dT%H:%M:%S.%f"` whose `.%f` is mandatory, so `strptime` raises
`ValueError` on the code's own serialized output.  With a nonzero
microsecond the round-trip succeeds, showing the failure is specific to the
zero-microsecond case. -/
theorem user_message_roundtrip_fails_at_zero_microsecond :
    deserializeUserMessage (serializeUserMessage
        ⟨"ADR-1", ⟨2020, 1, 1, 12, 0, 0, 0⟩, "ciphertext", "ref-1"⟩) = none ∧
      (serializeUserMessage
        ⟨"ADR-1", ⟨2020, 1, 1, 12, 0, 0, 0⟩, "ciphertext", "ref-1"⟩).sendTime =
        "2020-01-01T12:00:00" ∧
      deserializeUserMessage (serializeUserMessage
        ⟨"ADR-1", ⟨2020, 1, 1, 12, 0, 0, 123456⟩, "ciphertext", "ref-1"⟩) =
        some ⟨"ADR-1", ⟨2020, 1, 1, 12, 0, 0, 123456⟩, "ciphertext", "ref-1"⟩ := by
  refine ⟨by decide, by decide, by decide⟩

end Depeche.Wire

namespace Depeche.Storage

/-- C9 (code bug): `get_least_used_own_nacl_key` can return a key that is NOT
least used.  On `twoKeyStore`, own key `k1` backs zero addresses and own key
`k2` backs one, yet the query - whose `GROUP BY` is missing, so the whole
join collapses into a single aggregate row whose bare columns come from the
last row scanned - returns `k2`, contradicting the claim (and the method's
own docstring "Retrieves the least used key in the sense that it has the
least addresses tied to it"). -/
theorem least_used_key_query_not_minimal :
    getLeastUsedOwnNaclKey twoKeyStore = (some "k2", some "P2") ∧
      keyUsage twoKeyStore "k2" = 1 ∧
      keyUsage twoKeyStore "k1" = 0 ∧
      twoKeyStore.keys.any (fun k => k.id == "k1" && k.isOwn) = true := by
  refine ⟨rfl, rfl, rfl, rfl⟩

/-- C4 counterexample: on `foreignRefStore` - whose single own key is also
referenced by a foreign address - `clean_out_received_message("m1")` removes
the own address `a1`, after which NO own address references the key, yet the
key row survives (the `DELETE` raises `IntegrityError` because of the
foreign-address reference, and the code swallows it).  This falsifies the
claim's "removes the key record if and only if no other own address still
references it". -/
theorem clean_out_keeps_foreign_referenced_key :
    cleanOutReceivedMessage foreignRefStore "m1" =
        some { keys := [⟨"k", true, some "priv", "pub"⟩]
               ownAddresses := []
               foreignAddresses := [⟨"f1", "c", "k", false⟩]
               messages := [⟨"m1", "a1", "DATA"⟩] } ∧
      (cleanOutReceivedMessage foreignRefStore "m1").map
          (fun s => s.ownAddresses.any (fun a => a.keyId == "k")) = some false ∧
      (cleanOutReceivedMessage foreignRefStore "m1").map
          (fun s => s.keys.any (fun k => k.id == "k")) = some true := by
  refine ⟨rfl, rfl, rfl⟩

theorem exists_own_key_of_getOwnAddressNaclKey (st : Store) (addr kid : String)
    (h : (getOwnAddressNaclKey st addr).1 = some kid) :
    ∃ k ∈ st.keys, k.isOwn = true ∧ k.id = kid := by
  simp only [getOwnAddressNaclKey] at h
  cases hg : ((st.keys.filter (·.isOwn)).flatMap fun k =>
      (st.ownAddresses.filter (fun a => a.keyId == k.id && a.id == addr)).map
        (fun _ => k)).getLast? with
  | none => rw [hg] at h; simp at h
  | some k =>
    rw [hg] at h
    simp only [Option.some.injEq] at h
    have hmem := List.mem_of_mem_getLast? hg
    rw [List.mem_flatMap] at hmem
    obtain ⟨k', hk', hkm⟩ := hmem
    rw [List.mem_map] at hkm
    obtain ⟨_, _, rfl⟩ := hkm
    rw [List.mem_filter] at hk'
    exact ⟨k', hk'.1, hk'.2, h⟩

theorem getOwnAddressNaclKey_of_no_address (st : Store) (addr : String)
    (h : ∀ a ∈ st.ownAddresses, (a.id == addr) = false) :
    getOwnAddressNaclKey st addr = (none, none) := by
  simp only [getOwnAddressNaclKey]
  have hrows : ((st.keys.filter (·.isOwn)).flatMap fun k =>
      (st.ownAddresses.filter (fun a => a.keyId == k.id && a.id == addr)).map
        (fun _ => k)) = [] := by
    rw [List.flatMap_eq_nil_iff]
    intro k _
    rw [List.map_eq_nil_iff, List.filter_eq_nil_iff]
    intro a ha
    simp [h a ha]
  rw [hrows]
  rfl

theorem length_filter_lt_of_mem {α : Type} (p : α → Bool) {l : List α} {x : α}
    (hx : x ∈ l) (hp : p x = false) : (l.filter p).length < l.length := by
  induction l with
  | nil => cases hx
  | cons a t ih =>
    rw [List.filter_cons]
    rcases List.mem_cons.mp hx with rfl | hxt
    · rw [hp]
      simp only [Bool.false_eq_true, if_false]
      exact Nat.lt_succ_of_le (List.length_filter_le _ _)
    · by_cases hpa : p a = true
      · rw [hpa]
        simp only [if_true, List.length_cons]
        exact Nat.succ_lt_succ (ih hxt)
      · rw [Bool.not_eq_true] at hpa
        rw [hpa]
        simp only [Bool.false_eq_true, if_false, List.length_cons]
        exact Nat.lt_succ_of_lt (ih hxt)

theorem clean_out_idempotent_aux (st stX : Store) (mid : String) (msg : StoredMessage)
    (hmsg : readMessage st mid = some msg)
    (hm : stX.messages = st.messages)
    (hg : getOwnAddressNaclKey stX msg.headerAddress = (none, none)) :
    cleanOutReceivedMessage stX mid = some stX := by
  have hr : readMessage stX mid = some msg := by
    simp only [readMessage, hm]
    simpa only [readMessage] using hmsg
  simp only [cleanOutReceivedMessage, hr, hg]

/-- C4 amended: for every store (with the primary-key invariant that key ids
are distinct) and stored message id whose `header_address` is bound to an own
key, `clean_out_received_message` succeeds, afterwards
`get_own_address_nacl_key(header_address)` returns `(None, None)`, the key
row is gone if and only if no other address - own OR FOREIGN - still
references the key (the foreign-key check of the swallowed `IntegrityError`
covers both child tables, not only `own_address`), and invoking
`clean_out_received_message` again on the same id returns cleanly without
changing the store. -/
theorem clean_out_received_message_spec (st : Store) (mid : String)
    (msg : StoredMessage) (kid : String)
    (hmsg : readMessage st mid = some msg)
    (hkid : (getOwnAddressNaclKey st msg.headerAddress).1 = some kid)
    (hnodup : (st.keys.map (fun k => k.id)).Nodup) :
    ∃ st', cleanOutReceivedMessage st mid = some st' ∧
      getOwnAddressNaclKey st' msg.headerAddress = (none, none) ∧
      (st'.keys.all (fun k => !(k.id == kid)) = true ↔
        (st.ownAddresses.any (fun a => !(a.id == msg.headerAddress) && a.keyId == kid) ||
          st.foreignAddresses.any (fun f => f.keyId == kid)) = false) ∧
      cleanOutReceivedMessage st' mid = some st' := by
  obtain ⟨k, hkmem, hkown, hkeq⟩ :=
    exists_own_key_of_getOwnAddressNaclKey st msg.headerAddress kid hkid
  have hst1keys : (removeOwnAddress st msg.headerAddress).keys = st.keys := rfl
  have hst1own : (removeOwnAddress st msg.headerAddress).ownAddresses =
      st.ownAddresses.filter (fun a => !(a.id == msg.headerAddress)) := rfl
  have hst1msgs : (removeOwnAddress st msg.headerAddress).messages = st.messages := rfl
  have hdel : ((removeOwnAddress st msg.headerAddress).keys.filter
      (fun k2 => !(k2.id == kid && k2.isOwn))).length ≠
      (removeOwnAddress st msg.headerAddress).keys.length := by
    rw [hst1keys]
    have := length_filter_lt_of_mem (fun k2 => !(k2.id == kid && k2.isOwn)) hkmem
      (by simp [hkeq, hkown])
    omega
  have hnokid : ∀ k2 ∈ st.keys.filter (fun k2 => !(k2.id == kid && k2.isOwn)),
      (k2.id == kid) = false := by
    intro k2 hk2
    rw [List.mem_filter] at hk2
    by_contra hc
    rw [Bool.not_eq_false] at hc
    have hid : k2.id = kid := by simpa using hc
    have hkk : k2 = k :=
      List.inj_on_of_nodup_map hnodup hk2.1 hkmem (by rw [hid, hkeq])
    have := hk2.2
    rw [hkk] at this
    simp [hkeq, hkown] at this
  have hnokid' : ((removeOwnAddress st msg.headerAddress).keys.filter
      (fun k2 => !(k2.id == kid && k2.isOwn))).any (fun k2 => k2.id == kid) = false := by
    rw [hst1keys]
    by_contra hc
    rw [Bool.not_eq_false, List.any_eq_true] at hc
    obtain ⟨k2, hm, hp⟩ := hc
    rw [hnokid k2 hm] at hp
    exact Bool.false_ne_true hp
  have haddrgone : ∀ stX : Store,
      stX.ownAddresses = st.ownAddresses.filter (fun a => !(a.id == msg.headerAddress)) →
      getOwnAddressNaclKey stX msg.headerAddress = (none, none) := by
    intro stX hX
    apply getOwnAddressNaclKey_of_no_address
    intro a ha
    rw [hX, List.mem_filter] at ha
    have h2 := ha.2
    rwa [Bool.not_eq_eq_eq_not, Bool.not_true] at h2
  have hrefEq : keyReferenced (removeOwnAddress st msg.headerAddress) kid =
      (st.ownAddresses.any (fun a => !(a.id == msg.headerAddress) && a.keyId == kid) ||
        st.foreignAddresses.any (fun f => f.keyId == kid)) := by
    simp only [keyReferenced, hst1own]
    rw [List.any_filter]
    rfl
  have hallf : (st.keys.all fun k2 => !(k2.id == kid)) = false := by
    by_contra hc
    rw [Bool.not_eq_false] at hc
    have := List.all_eq_true.mp hc k hkmem
    simp [hkeq] at this
  by_cases href : keyReferenced (removeOwnAddress st msg.headerAddress) kid = true
  · have hcond : removeOwnNaclKey (removeOwnAddress st msg.headerAddress) kid =
        Except.error () := by
      simp only [removeOwnNaclKey]
      rw [decide_eq_true hdel, href, hnokid']
      simp
    refine ⟨removeOwnAddress st msg.headerAddress, ?_, haddrgone _ rfl, ?_, ?_⟩
    · simp only [cleanOutReceivedMessage, hmsg, hkid, hcond]
    · rw [hst1keys, hallf]
      rw [hrefEq] at href
      rw [href]
      simp
    · exact clean_out_idempotent_aux st _ mid msg hmsg hst1msgs (haddrgone _ rfl)
  · rw [Bool.not_eq_true] at href
    have hcond : removeOwnNaclKey (removeOwnAddress st msg.headerAddress) kid =
        Except.ok { removeOwnAddress st msg.headerAddress with
          keys := (removeOwnAddress st msg.headerAddress).keys.filter
            (fun k2 => !(k2.id == kid && k2.isOwn)) } := by
      simp only [removeOwnNaclKey]
      rw [href]
      simp
    refine ⟨{ removeOwnAddress st msg.headerAddress with
        keys := (removeOwnAddress st msg.headerAddress).keys.filter
          (fun k2 => !(k2.id == kid && k2.isOwn)) }, ?_, haddrgone _ rfl, ?_, ?_⟩
    · simp only [cleanOutReceivedMessage, hmsg, hkid, hcond]
    · have hallt : (((removeOwnAddress st msg.headerAddress).keys.filter
          (fun k2 => !(k2.id == kid && k2.isOwn))).all (fun k2 => !(k2.id == kid))) = true := by
        rw [List.all_eq_true]
        intro k2 hm
        rw [hst1keys] at hm
        rw [hnokid k2 hm]
        rfl
      rw [show ({ removeOwnAddress st msg.headerAddress with
          keys := (removeOwnAddress st msg.headerAddress).keys.filter
            (fun k2 => !(k2.id == kid && k2.isOwn)) } : Store).keys =
          (removeOwnAddress st msg.headerAddress).keys.filter
            (fun k2 => !(k2.id == kid && k2.isOwn)) from rfl]
      rw [hallt]
      rw [hrefEq] at href
      rw [href]
      simp
    · exact clean_out_idempotent_aux st _ mid msg hmsg hst1msgs (haddrgone _ rfl)

/-- Witness for C4 on the repository's own clean-out test scenario
(`twoAddressStore`): key `k` backs addresses `a1` and `a2`, message `m1` was
delivered to `a1`. -/
theorem clean_out_received_message_spec_witness :
    ∃ st', cleanOutReceivedMessage twoAddressStore "m1" = some st' ∧
      getOwnAddressNaclKey st' "a1" = (none, none) ∧
      (st'.keys.all (fun k => !(k.id == "k")) = true ↔
        (twoAddressStore.ownAddresses.any (fun a => !(a.id == "a1") && a.keyId == "k") ||
          twoAddressStore.foreignAddresses.any (fun f => f.keyId == "k")) = false) ∧
      cleanOutReceivedMessage st' "m1" = some st' :=
  clean_out_received_message_spec twoAddressStore "m1" ⟨"m1", "a1", "X"⟩ "k"
    (by decide) (by decide) (by decide)

end Depeche.Storage

namespace Depeche.Exchange

theorem runRoundsB (ns : List Depeche.Wire.UserMessage) :
    ∀ fuel b dc da sc rc sa ra,
      (∀ m ∈ ns, roundTrips m) →
      runRounds (fuel + ns.length + 2)
        ⟨false, true, [], dc, sc, rc⟩ ⟨true, b, ns, da, sa, ra⟩ [] [[WireMsg.noMoreData]] =
      Outcome.done ⟨false, false, [], dc ++ ns, sc + ns.length + 1, rc + 1⟩
        ⟨false, false, [], da, sa + 1, ra + ns.length + 1⟩ := by
  induction ns with
  | nil =>
    intro fuel b dc da sc rc sa ra _
    rw [show fuel + ([] : List Depeche.Wire.UserMessage).length + 2 = (fuel + 1) + 1 from by
      simp]
    rw [runRounds]
    simp [active, loopIter, recvPhase, deserializeContainer, deserializeMsg, recvOne, sendPhase]
    rw [runRounds]
    simp [active]
  | cons n t ih =>
    intro fuel b dc da sc rc sa ra h
    have hn := h n (List.mem_cons_self n t)
    have ht : ∀ m ∈ t, roundTrips m := fun m hm => h m (List.mem_cons_of_mem n hm)
    rw [show fuel + (n :: t).length + 2 = (fuel + t.length + 2) + 1 from by simp +arith]
    rw [runRounds]
    simp [active, loopIter, recvPhase, deserializeContainer, deserializeMsg, recvOne,
      sendPhase, hn]
    rw [ih fuel false (dc ++ [n]) da (sc + 1) rc sa (ra + 1) ht]
    simp +arith [List.append_assoc]

theorem runRoundsC (ms : List Depeche.Wire.UserMessage) :
    ∀ fuel m dc da sc rc sa ra,
      roundTrips m →
      (∀ x ∈ ms, roundTrips x) →
      runRounds (fuel + ms.length + 3)
        ⟨true, false, ms, dc, sc, rc⟩ ⟨false, true, [], da, sa, ra⟩ []
        [[WireMsg.user (Depeche.Wire.serializeUserMessage m)]] =
      Outcome.done ⟨false, false, [], dc, sc + 1, rc + ms.length + 1⟩
        ⟨false, false, [], da ++ (m :: ms), sa + ms.length + 2, ra + 1⟩ := by
  induction ms with
  | nil =>
    intro fuel m dc da sc rc sa ra hm _
    rw [show fuel + ([] : List Depeche.Wire.UserMessage).length + 3 = ((fuel + 1) + 1) + 1 from
      by simp +arith]
    rw [runRounds]
    simp [active, loopIter, recvPhase, deserializeContainer, deserializeMsg, recvOne,
      sendPhase, hm]
    rw [runRounds]
    simp [active, loopIter, recvPhase, deserializeContainer, deserializeMsg, recvOne, sendPhase]
    rw [runRounds]
    simp [active]
  | cons m2 t ih =>
    intro fuel m dc da sc rc sa ra hm hms
    have hm2 := hms m2 (List.mem_cons_self m2 t)
    have ht : ∀ x ∈ t, roundTrips x := fun x hx => hms x (List.mem_cons_of_mem m2 hx)
    rw [show fuel + (m2 :: t).length + 3 = (fuel + t.length + 3) + 1 from by simp +arith]
    rw [runRounds]
    simp [active, loopIter, recvPhase, deserializeContainer, deserializeMsg, recvOne,
      sendPhase, hm]
    rw [ih fuel m2 dc (da ++ [m]) sc (rc + 1) (sa + 1) ra hm2 ht]
    simp +arith [List.append_assoc]

theorem runRoundsA (ns : List Depeche.Wire.UserMessage) :
    ∀ ms fuel m dc da sc rc sa ra,
      roundTrips m →
      (∀ x ∈ ms, roundTrips x) →
      (∀ x ∈ ns, roundTrips x) →
      ∃ scF rcF saF raF,
        runRounds (fuel + ms.length + ns.length + 3)
          ⟨true, true, ms, dc, sc, rc⟩ ⟨true, true, ns, da, sa, ra⟩ []
          [[WireMsg.user (Depeche.Wire.serializeUserMessage m)]] =
        Outcome.done ⟨false, false, [], dc ++ ns, scF, rcF⟩
          ⟨false, false, [], da ++ (m :: ms), saF, raF⟩ ∧
        sc + 1 ≤ scF ∧ rc + 1 ≤ rcF ∧ sa + 1 ≤ saF ∧ ra + 1 ≤ raF := by
  induction ns with
  | nil =>
    intro ms fuel m dc da sc rc sa ra hm hms _
    cases ms with
    | nil =>
      refine ⟨sc + 1, rc + 1, sa + 2, ra + 1, ?_, by omega, by omega, by omega, by omega⟩
      rw [show fuel + ([] : List Depeche.Wire.UserMessage).length +
        ([] : List Depeche.Wire.UserMessage).length + 3 = ((fuel + 1) + 1) + 1 from by
        simp +arith]
      rw [runRounds]
      simp [active, loopIter, recvPhase, deserializeContainer, deserializeMsg, recvOne,
        sendPhase, hm]
      rw [runRounds]
      simp [active, loopIter, recvPhase, deserializeContainer, deserializeMsg, recvOne,
        sendPhase]
      rw [runRounds]
      simp [active]
    | cons m2 t =>
      have hm2 := hms m2 (List.mem_cons_self m2 t)
      have ht : ∀ x ∈ t, roundTrips x := fun x hx => hms x (List.mem_cons_of_mem m2 hx)
      refine ⟨sc + 1, rc + t.length + 2, sa + t.length + 3, ra + 1, ?_,
        by omega, by omega, by omega, by omega⟩
      rw [show fuel + (m2 :: t).length + ([] : List Depeche.Wire.UserMessage).length + 3 =
        (fuel + t.length + 3) + 1 from by simp +arith]
      rw [runRounds]
      simp [active, loopIter, recvPhase, deserializeContainer, deserializeMsg, recvOne,
        sendPhase, hm]
      rw [runRoundsC t fuel m2 dc (da ++ [m]) sc (rc + 1) (sa + 1) ra hm2 ht]
      simp +arith [List.append_assoc]
  | cons n t ih =>
    intro ms fuel m dc da sc rc sa ra hm hms hns
    have hn := hns n (List.mem_cons_self n t)
    have htns : ∀ x ∈ t, roundTrips x := fun x hx => hns x (List.mem_cons_of_mem n hx)
    cases ms with
    | nil =>
      refine ⟨sc + t.length + 2, rc + 1, sa + 1, ra + t.length + 1, ?_,
        by omega, by omega, by omega, by omega⟩
      rw [show fuel + ([] : List Depeche.Wire.UserMessage).length + (n :: t).length + 3 =
        (((fuel + 1) + t.length) + 2) + 1 from by simp +arith]
      rw [runRounds]
      simp [active, loopIter, recvPhase, deserializeContainer, deserializeMsg, recvOne,
        sendPhase, hm, hn]
      rw [runRoundsB t (fuel + 1) true (dc ++ [n]) (da ++ [m]) (sc + 1) rc sa ra htns]
      simp +arith [List.append_assoc]
    | cons m2 u =>
      have hm2 := hms m2 (List.mem_cons_self m2 u)
      have htms : ∀ x ∈ u, roundTrips x := fun x hx => hms x (List.mem_cons_of_mem m2 hx)
      obtain ⟨scF, rcF, saF, raF, hrun, h1, h2, h3, h4⟩ :=
        ih u (fuel + 1) m2 (dc ++ [n]) (da ++ [m]) sc rc sa ra hm2 htms htns
      refine ⟨scF, rcF, saF, raF, ?_, by omega, by omega, by omega, by omega⟩
      rw [show fuel + (m2 :: u).length + (n :: t).length + 3 =
        (((fuel + 1) + u.length) + t.length + 3) + 1 from by simp +arith]
      rw [runRounds]
      simp [active, loopIter, recvPhase, deserializeContainer, deserializeMsg, recvOne,
        sendPhase, hm, hn]
      rw [hrun]
      simp +arith [List.append_assoc]

/-- C2 counterexample: with the connector holding a single user message whose
`send_time` has `microsecond == 0`, the acceptor's
`MessageContainer.deserialize` raises `ValueError` on the very first
container - `strptime("%Y-%m-%dT%H:%M:%S.%f")` rejects the fractional-less
timestamp that the connector's own `serialize` emitted - and nothing in
`_message_exchange_loop` or `_receive_messages` catches it, so the exchange
crashes instead of completing: the claim's universally quantified guarantees
(termination with both flags false, exactly-once delivery, `no_more_data`
both ways) fail at this input. -/
theorem exchange_crashes_on_zero_microsecond_message :
    exchangeRun [⟨"ADR-1", ⟨2020, 1, 1, 12, 0, 0, 0⟩, "c1", "r1"⟩] [] = Outcome.crashed ∧
      ¬ ∃ connF accF,
        exchangeRun [⟨"ADR-1", ⟨2020, 1, 1, 12, 0, 0, 0⟩, "c1", "r1"⟩] [] =
            Outcome.done connF accF ∧
          connF.delivered = [] ∧
          accF.delivered = [⟨"ADR-1", ⟨2020, 1, 1, 12, 0, 0, 0⟩, "c1", "r1"⟩] ∧
          connF.ks = false ∧ connF.kr = false ∧ accF.ks = false ∧ accF.kr = false ∧
          1 ≤ connF.nmdSent ∧ 1 ≤ connF.nmdRecv ∧ 1 ≤ accF.nmdSent ∧ 1 ≤ accF.nmdRecv := by
  have h0 : exchangeRun [⟨"ADR-1", ⟨2020, 1, 1, 12, 0, 0, 0⟩, "c1", "r1"⟩] [] =
      Outcome.crashed := by rfl
  refine ⟨h0, ?_⟩
  rintro ⟨connF, accF, hdone, -⟩
  rw [h0] at hdone
  exact Outcome.noConfusion hdone

/-- C2 amended: for the message-exchange loop run at both ends of one
reliable connection - the connector with `start_sending = true` and messages
`ms`, the acceptor with `start_sending = false` and messages `ns` - PROVIDED
every message's wire codec round-trips (its serialized `send_time` is
parsable by `UserMessage.deserialize`, which by the C10 finding excludes
`microsecond == 0`), the deterministic lock-step execution terminates
(neither endpoint blocks or crashes) with both flags false on both sides,
the connector's `on_message_received` called exactly once per acceptor
message (in order, `delivered = ns`), the acceptor's exactly once per
connector message (`delivered = ms`), and each side both sent and received
at least one `no_more_data`. -/
theorem exchange_loop_completeness (ms ns : List Depeche.Wire.UserMessage)
    (h : ∀ m ∈ ms ++ ns, roundTrips m) :
    ∃ connF accF,
      exchangeRun ms ns = Outcome.done connF accF ∧
      connF.delivered = ns ∧ accF.delivered = ms ∧
      connF.ks = false ∧ connF.kr = false ∧ accF.ks = false ∧ accF.kr = false ∧
      1 ≤ connF.nmdSent ∧ 1 ≤ connF.nmdRecv ∧ 1 ≤ accF.nmdSent ∧ 1 ≤ accF.nmdRecv := by
  have hns : ∀ m ∈ ns, roundTrips m := fun m hm => h m (List.mem_append_right ms hm)
  cases ms with
  | nil =>
    refine ⟨⟨false, false, [], ns, ns.length + 2, 1⟩, ⟨false, false, [], [], 1, ns.length + 1⟩,
      ?_, rfl, rfl, rfl, rfl, rfl, rfl, by simp +arith, by simp +arith, by simp +arith,
      by simp +arith⟩
    simp only [exchangeRun, initState, sendPhase]
    rw [show ([] : List Depeche.Wire.UserMessage).length + ns.length + 3 = 1 + ns.length + 2
      from by simp +arith]
    rw [runRoundsB ns 1 true [] [] 1 0 0 0 hns]
    simp +arith
  | cons m mrest =>
    have hm : roundTrips m := h m (by simp)
    have hms : ∀ x ∈ mrest, roundTrips x := fun x hx => h x (by simp [hx])
    obtain ⟨scF, rcF, saF, raF, hrun, h1, h2, h3, h4⟩ :=
      runRoundsA ns mrest 1 m [] [] 0 0 0 0 hm hms hns
    simp only [List.nil_append] at hrun
    refine ⟨⟨false, false, [], ns, scF, rcF⟩, ⟨false, false, [], m :: mrest, saF, raF⟩,
      ?_, rfl, rfl, rfl, rfl, rfl, rfl, by exact h1, by exact h2, by exact h3, by exact h4⟩
    simp only [exchangeRun, initState, sendPhase]
    rw [show (m :: mrest).length + ns.length + 3 = 1 + mrest.length + ns.length + 3 from by
      simp +arith]
    exact hrun

/-- Witness for C2 (amended) at two concrete single-message lists whose
`send_time` microseconds are nonzero, so both wire codecs round-trip. -/
theorem exchange_loop_completeness_witness :
    ∃ connF accF,
      exchangeRun [⟨"ADR-A", ⟨2021, 5, 6, 7, 8, 9, 123456⟩, "cA", "rA"⟩]
          [⟨"ADR-B", ⟨2022, 1, 2, 3, 4, 5, 42⟩, "cB", "rB"⟩] = Outcome.done connF accF ∧
      connF.delivered = [⟨"ADR-B", ⟨2022, 1, 2, 3, 4, 5, 42⟩, "cB", "rB"⟩] ∧
      accF.delivered = [⟨"ADR-A", ⟨2021, 5, 6, 7, 8, 9, 123456⟩, "cA", "rA"⟩] ∧
      connF.ks = false ∧ connF.kr = false ∧ accF.ks = false ∧ accF.kr = false ∧
      1 ≤ connF.nmdSent ∧ 1 ≤ connF.nmdRecv ∧ 1 ≤ accF.nmdSent ∧ 1 ≤ accF.nmdRecv :=
  exchange_loop_completeness
    [⟨"ADR-A", ⟨2021, 5, 6, 7, 8, 9, 123456⟩, "cA", "rA"⟩]
    [⟨"ADR-B", ⟨2022, 1, 2, 3, 4, 5, 42⟩, "cB", "rB"⟩] (by decide)

end Depeche.Exchange
